import Mathlib

/-!
Verification of the Edge-Link webhook receiver
(`src/test-webhook-receiver.py`, a single-file Python program).

The program is shallowly embedded: Python byte strings become `List Nat`,
`bytes.decode("utf-8")` becomes a strict UTF-8 decoder returning
`Except String String`, `json.loads` becomes a fuel-based recursive-descent
parser over `List Char` following CPython's `json` grammar (including the
`NaN`/`Infinity` constants and last-wins duplicate keys at first-occurrence
position), and the handler `WebhookHandler.do_POST` becomes a pure function
from a `Request` to an `Outcome` that records every `print` call in order and
either responds or crashes with an uncaught exception.

Modelling notes (divergences are confined to places no claim touches):
* Error-message *text* follows CPython's wording; multi-byte UTF-8 errors
  always report the sequence's start byte, and JSON error positions are
  rendered in CPython's `line L column C (char N)` format.
* `Json.jnum` stores the numeric literal's lexeme.  `pyStr` renders the
  lexeme itself: exact for JSON integer literals (CPython's `str(int)` is the
  canonical decimal form), an approximation for float literals, whose CPython
  rendering goes through binary floating point.
* String escapes `\uXXXX` that form a lone surrogate are rejected by the
  embedded parser because a Lean `Char` cannot denote a surrogate; CPython
  would accept them.
* `int(...)` strips only ASCII whitespace here; CPython also strips some
  Unicode spaces.
-/

namespace EdgeLink

/-- Generic JSON value, the shape `json.loads` produces: `None`, `bool`,
numbers (lexeme kept), `str`, `list`, and `dict` as an insertion-ordered
association list with unique keys. -/
inductive Json where
  | jnull
  | jbool (b : Bool)
  | jnum (lexeme : String)
  | jstr (s : String)
  | jarr (xs : List Json)
  | jobj (kvs : List (String × Json))

/-- Dict insertion as CPython does it: an existing key keeps its position and
takes the new value, a new key is appended. -/
def objInsert (kvs : List (String × Json)) (k : String) (v : Json) :
    List (String × Json) :=
  if kvs.any (fun kv => kv.1 = k) then
    kvs.map (fun kv => if kv.1 = k then (k, v) else kv)
  else
    kvs ++ [(k, v)]

/-- Lookup in a parsed JSON object, the model of `dict.get` returning
`None`/default when the key is absent. -/
def getD (o : List (String × Json)) (k : String) : Option Json :=
  (o.find? (fun kv => kv.1 = k)).map (fun kv => kv.2)

/-- Whether a numeric lexeme denotes zero (its mantissa has no nonzero
digit); used for Python truthiness of numbers. -/
def numLexZero (lex : String) : Bool :=
  (lex.data.takeWhile (fun c => c ≠ 'e' ∧ c ≠ 'E')).all
    (fun c => c = '0' ∨ c = '-' ∨ c = '+' ∨ c = '.')

/-- Whether a numeric lexeme is a JSON integer literal (parsed by CPython's
`json` into `int` rather than `float`). -/
def numLexIsInt (lex : String) : Bool :=
  lex.data.all (fun c => c.isDigit ∨ c = '-')

/-- Backslash-escaping inside Python `repr` of a string (simplified to the
escapes exercised here). -/
def pyReprEsc : List Char → String
  | [] => ""
  | c :: cs =>
      (if c = '\\' then "\\\\"
       else if c = '\x27' then "\\\x27"
       else if c = '\n' then "\\n"
       else if c = '\r' then "\\r"
       else if c = '\t' then "\\t"
       else String.mk [c]) ++ pyReprEsc cs

mutual

/-- Python `repr(v)` for a decoded JSON value (strings get single quotes with
backslash escapes), used for elements inside `str` of a list or dict. -/
def pyRepr : Json → String
  | .jnull => "None"
  | .jbool true => "True"
  | .jbool false => "False"
  | .jnum lex => lex
  | .jstr s => "\x27" ++ pyReprEsc s.data ++ "\x27"
  | .jarr xs => "[" ++ pyReprItems xs ++ "]"
  | .jobj kvs => "\x7b" ++ pyReprPairs kvs ++ "\x7d"

/-- Comma-separated `repr`s of list elements. -/
def pyReprItems : List Json → String
  | [] => ""
  | [x] => pyRepr x
  | x :: y :: xs => pyRepr x ++ ", " ++ pyReprItems (y :: xs)

/-- Comma-separated `repr(k): repr(v)` pairs of a dict. -/
def pyReprPairs : List (String × Json) → String
  | [] => ""
  | [kv] => "\x27" ++ pyReprEsc kv.1.data ++ "\x27: " ++ pyRepr kv.2
  | kv :: kv2 :: kvs =>
      "\x27" ++ pyReprEsc kv.1.data ++ "\x27: " ++ pyRepr kv.2 ++ ", " ++
        pyReprPairs (kv2 :: kvs)

end

/-- Python `str(v)` for a decoded JSON value, as used by the handler's
f-strings: `None`, `True`/`False`, numbers by their lexeme, the string itself
unquoted, and `repr`-based rendering of the contents for lists and dicts. -/
def pyStr : Json → String
  | .jnull => "None"
  | .jbool true => "True"
  | .jbool false => "False"
  | .jnum lex => lex
  | .jstr s => s
  | .jarr xs => "[" ++ pyReprItems xs ++ "]"
  | .jobj kvs => "\x7b" ++ pyReprPairs kvs ++ "\x7d"

/-- Python truthiness of a decoded JSON value, the test `if data.get('metadata'):`
performs: `None`, `False`, zero, empty string/list/dict are falsy. -/
def pyTruthy : Json → Bool
  | .jnull => false
  | .jbool b => b
  | .jnum lex => !numLexZero lex
  | .jstr s => !s.data.isEmpty
  | .jarr xs => !xs.isEmpty
  | .jobj kvs => !kvs.isEmpty

/-- Python type name of a decoded JSON value, as it appears in
`AttributeError` messages. -/
def pyTypeName : Json → String
  | .jnull => "NoneType"
  | .jbool _ => "bool"
  | .jnum lex => if numLexIsInt lex then "int" else "float"
  | .jstr _ => "str"
  | .jarr _ => "list"
  | .jobj _ => "dict"

/-- Whether the decoded value is a JSON object (a Python `dict`). -/
def Json.isObj : Json → Bool
  | .jobj _ => true
  | _ => false

/-- Digit run with CPython underscore rules (`1_0` fine, `1__0`, `1_`, `_1`
rejected), continuing an already-started number. -/
def pyDigitsGo (acc : Nat) : List Char → Option Nat
  | [] => some acc
  | '_' :: c :: cs =>
      if c.isDigit then pyDigitsGo (acc * 10 + (c.toNat - 48)) cs else none
  | ['_'] => none
  | c :: cs =>
      if c.isDigit then pyDigitsGo (acc * 10 + (c.toNat - 48)) cs else none

/-- Nonempty digit run (first char must be a digit). -/
def pyDigits : List Char → Option Nat
  | [] => none
  | c :: cs => if c.isDigit then pyDigitsGo (c.toNat - 48) cs else none

/-- ASCII whitespace stripped by `int(str)`. -/
def isPyWs (c : Char) : Bool :=
  c = ' ' ∨ c = '\t' ∨ c = '\n' ∨ c = '\r' ∨ c = '\x0b' ∨ c = '\x0c'

/-- Python `int(s)` on a string: strip whitespace, optional sign, decimal
digits with underscore separators; `none` models the raised `ValueError`. -/
def pyInt (s : String) : Option Int :=
  let cs := ((s.data.dropWhile isPyWs).reverse.dropWhile isPyWs).reverse
  match cs with
  | '+' :: rest => (pyDigits rest).map Int.ofNat
  | '-' :: rest => (pyDigits rest).map (fun n => -(Int.ofNat n : Int))
  | _ => (pyDigits cs).map Int.ofNat

/-- Line 11, `int(self.headers['Content-Length'])`: a missing header yields
Python `None` and `int(None)` raises `TypeError`; a non-numeric value raises
`ValueError`.  Both failures are `none`. -/
def pyIntOfHeader : Option String → Option Int
  | none => none
  | some s => pyInt s

/-- Two lowercase hex digits of a byte, as CPython prints them in decode
errors. -/
def hexByte (b : Nat) : String :=
  let dig := fun (n : Nat) =>
    if n < 10 then Char.ofNat (48 + n) else Char.ofNat (87 + n)
  String.mk [dig (b / 16 % 16), dig (b % 16)]

/-- CPython's `UnicodeDecodeError` message text for the strict utf-8 codec. -/
def utf8ErrMsg (b pos : Nat) (reason : String) : String :=
  "\x27utf-8\x27 codec can\x27t decode byte 0x" ++ hexByte b ++
    " in position " ++ toString pos ++ ": " ++ reason

/-- Whether a byte is a UTF-8 continuation byte in the given inclusive
range. -/
def contIn (lo hi c : Nat) : Bool := lo ≤ c ∧ c ≤ hi

/-- Strict UTF-8 decoding loop: `i` is the position of the current byte,
`fuel` bounds recursion (call with the byte count, each step consumes at
least one byte). -/
def utf8Go : Nat → Nat → List Nat → Except String (List Char)
  | _, _, [] => .ok []
  | 0, i, b :: _ => .error (utf8ErrMsg b i "decoder fuel exhausted")
  | fuel + 1, i, b :: rest =>
    if b < 0x80 then
      (utf8Go fuel (i + 1) rest).map (fun cs => Char.ofNat b :: cs)
    else if b < 0xc2 then .error (utf8ErrMsg b i "invalid start byte")
    else if b < 0xe0 then
      match rest with
      | [] => .error (utf8ErrMsg b i "unexpected end of data")
      | c :: rest2 =>
        if contIn 0x80 0xbf c then
          (utf8Go fuel (i + 2) rest2).map
            (fun cs => Char.ofNat ((b - 0xc0) * 64 + (c - 0x80)) :: cs)
        else .error (utf8ErrMsg b i "invalid continuation byte")
    else if b < 0xf0 then
      match rest with
      | [] => .error (utf8ErrMsg b i "unexpected end of data")
      | c1 :: rest2 =>
        let ok1 :=
          if b = 0xe0 then contIn 0xa0 0xbf c1
          else if b = 0xed then contIn 0x80 0x9f c1
          else contIn 0x80 0xbf c1
        if ok1 then
          match rest2 with
          | [] => .error (utf8ErrMsg b i "unexpected end of data")
          | c2 :: rest3 =>
            if contIn 0x80 0xbf c2 then
              (utf8Go fuel (i + 3) rest3).map
                (fun cs =>
                  Char.ofNat ((b - 0xe0) * 4096 + (c1 - 0x80) * 64 + (c2 - 0x80)) :: cs)
            else .error (utf8ErrMsg b i "invalid continuation byte")
        else .error (utf8ErrMsg b i "invalid continuation byte")
    else if b < 0xf5 then
      match rest with
      | [] => .error (utf8ErrMsg b i "unexpected end of data")
      | c1 :: rest2 =>
        let ok1 :=
          if b = 0xf0 then contIn 0x90 0xbf c1
          else if b = 0xf4 then contIn 0x80 0x8f c1
          else contIn 0x80 0xbf c1
        if ok1 then
          match rest2 with
          | [] => .error (utf8ErrMsg b i "unexpected end of data")
          | c2 :: rest3 =>
            if contIn 0x80 0xbf c2 then
              match rest3 with
              | [] => .error (utf8ErrMsg b i "unexpected end of data")
              | c3 :: rest4 =>
                if contIn 0x80 0xbf c3 then
                  (utf8Go fuel (i + 4) rest4).map
                    (fun cs =>
                      Char.ofNat ((b - 0xf0) * 262144 + (c1 - 0x80) * 4096 +
                        (c2 - 0x80) * 64 + (c3 - 0x80)) :: cs)
                else .error (utf8ErrMsg b i "invalid continuation byte")
            else .error (utf8ErrMsg b i "invalid continuation byte")
        else .error (utf8ErrMsg b i "invalid continuation byte")
    else .error (utf8ErrMsg b i "invalid start byte")

/-- Line 19 / line 38, `post_data.decode('utf-8')`: strict UTF-8 decoding of
the body bytes; an `error` models the raised `UnicodeDecodeError`. -/
def utf8Decode (bytes : List Nat) : Except String String :=
  (utf8Go bytes.length 0 bytes).map String.mk

/-- JSON parse error before formatting: message kind and character
position. -/
structure PErr where
  what : String
  pos : Nat

/-- Parser task: a pending value, the element loop of an array, the member
loop of an object, or the character loop of a string literal (with the
position of its opening quote). -/
inductive PTask where
  | value
  | elements (acc : List Json)
  | members (acc : List (String × Json))
  | strChunk (startPos : Nat) (acc : List Char)

/-- JSON whitespace skipping (space, tab, newline, carriage return),
advancing the character position. -/
def skipWs : Nat → List Char → Nat × List Char
  | pos, [] => (pos, [])
  | pos, c :: cs =>
      if c = ' ' ∨ c = '\t' ∨ c = '\n' ∨ c = '\r' then skipWs (pos + 1) cs
      else (pos, c :: cs)

/-- Match a literal keyword, returning the remaining characters. -/
def takeLit : List Char → List Char → Option (List Char)
  | [], cs => some cs
  | _ :: _, [] => none
  | l :: ls, c :: cs => if c = l then takeLit ls cs else none

/-- Fractional part of CPython's `NUMBER_RE`: a dot followed by at least one
digit, else nothing. -/
def matchFrac (cs : List Char) : List Char × List Char :=
  match cs with
  | '.' :: r =>
      let ds := r.takeWhile Char.isDigit
      if ds.isEmpty then ([], cs) else ('.' :: ds, r.dropWhile Char.isDigit)
  | _ => ([], cs)

/-- Exponent part of CPython's `NUMBER_RE`: `e`/`E`, optional sign, at least
one digit, else nothing. -/
def matchExp (cs : List Char) : List Char × List Char :=
  match cs with
  | e :: r =>
      if e = 'e' ∨ e = 'E' then
        let (sgn, r2) :=
          match r with
          | s :: r2 => if s = '+' ∨ s = '-' then ([s], r2) else (([] : List Char), s :: r2)
          | [] => ([], [])
        let ds := r2.takeWhile Char.isDigit
        if ds.isEmpty then ([], cs)
        else (e :: (sgn ++ ds), r2.dropWhile Char.isDigit)
      else ([], cs)
  | [] => ([], cs)

/-- CPython `json` number regex `-?(0|[1-9]\d*)(\.\d+)?([eE][-+]?\d+)?`,
returning the matched lexeme and the rest, or `none` if no match starts
here. -/
def matchNumber (cs : List Char) : Option (List Char × List Char) :=
  let (sign, r1) :=
    match cs with
    | '-' :: r => ((['-'] : List Char), r)
    | _ => ([], cs)
  match r1 with
  | [] => none
  | c :: r2 =>
      if c = '0' then
        let (fr, r3) := matchFrac r2
        let (ex, r4) := matchExp r3
        some (sign ++ [c] ++ fr ++ ex, r4)
      else if c.isDigit then
        let ds := r2.takeWhile Char.isDigit
        let r2b := r2.dropWhile Char.isDigit
        let (fr, r3) := matchFrac r2b
        let (ex, r4) := matchExp r3
        some (sign ++ (c :: ds) ++ fr ++ ex, r4)
      else none

/-- Hexadecimal digit test for `\uXXXX` escapes. -/
def isHex (c : Char) : Bool :=
  c.isDigit ∨ ('a' ≤ c ∧ c ≤ 'f') ∨ ('A' ≤ c ∧ c ≤ 'F')

/-- Hexadecimal digit value. -/
def hexVal (c : Char) : Nat :=
  if c.isDigit then c.toNat - 48
  else if 'a' ≤ c ∧ c ≤ 'f' then c.toNat - 87
  else c.toNat - 55

/-- One recursive-descent parser for CPython's `json.loads` grammar.  `fuel`
only bounds recursion (every fuel step consumes input, and callers supply
more fuel than the input length can use), `pos` is the current character
position for error reporting. -/
def pstep : Nat → PTask → Nat → List Char → Except PErr (Json × Nat × List Char)
  | 0, _, pos, _ => .error ⟨"parser fuel exhausted", pos⟩
  | fuel + 1, .value, pos, cs =>
    match cs with
    | [] => .error ⟨"Expecting value", pos⟩
    | '"' :: rest => pstep fuel (.strChunk pos []) (pos + 1) rest
    | '\x7b' :: rest =>
        let (pos2, cs2) := skipWs (pos + 1) rest
        (match cs2 with
         | '\x7d' :: r2 => .ok (.jobj [], pos2 + 1, r2)
         | _ => pstep fuel (.members []) pos2 cs2)
    | '[' :: rest =>
        let (pos2, cs2) := skipWs (pos + 1) rest
        (match cs2 with
         | ']' :: r2 => .ok (.jarr [], pos2 + 1, r2)
         | _ => pstep fuel (.elements []) pos2 cs2)
    | _ =>
        match takeLit ['n', 'u', 'l', 'l'] cs with
        | some r => .ok (.jnull, pos + 4, r)
        | none =>
        match takeLit ['t', 'r', 'u', 'e'] cs with
        | some r => .ok (.jbool true, pos + 4, r)
        | none =>
        match takeLit ['f', 'a', 'l', 's', 'e'] cs with
        | some r => .ok (.jbool false, pos + 5, r)
        | none =>
        match takeLit ['N', 'a', 'N'] cs with
        | some r => .ok (.jnum "nan", pos + 3, r)
        | none =>
        match takeLit ['I', 'n', 'f', 'i', 'n', 'i', 't', 'y'] cs with
        | some r => .ok (.jnum "inf", pos + 8, r)
        | none =>
        match takeLit ['-', 'I', 'n', 'f', 'i', 'n', 'i', 't', 'y'] cs with
        | some r => .ok (.jnum "-inf", pos + 9, r)
        | none =>
        match matchNumber cs with
        | some (lex, r) => .ok (.jnum (String.mk lex), pos + lex.length, r)
        | none => .error ⟨"Expecting value", pos⟩
  | fuel + 1, .elements acc, pos, cs =>
    (match pstep fuel .value pos cs with
     | .error e => .error e
     | .ok (v, pos2, cs2) =>
       let (pos3, cs3) := skipWs pos2 cs2
       match cs3 with
       | ']' :: r => .ok (.jarr (acc ++ [v]), pos3 + 1, r)
       | ',' :: r =>
           let (pos4, cs4) := skipWs (pos3 + 1) r
           pstep fuel (.elements (acc ++ [v])) pos4 cs4
       | _ => .error ⟨"Expecting \x27,\x27 delimiter", pos3⟩)
  | fuel + 1, .members acc, pos, cs =>
    (match cs with
     | '"' :: rest =>
       (match pstep fuel (.strChunk pos []) (pos + 1) rest with
        | .error e => .error e
        | .ok (k, pos2, cs2) =>
          let key := match k with | .jstr s => s | _ => ""
          let (pos3, cs3) := skipWs pos2 cs2
          match cs3 with
          | ':' :: r =>
            let (pos4, cs4) := skipWs (pos3 + 1) r
            (match pstep fuel .value pos4 cs4 with
             | .error e => .error e
             | .ok (v, pos5, cs5) =>
               let acc2 := objInsert acc key v
               let (pos6, cs6) := skipWs pos5 cs5
               match cs6 with
               | '\x7d' :: r2 => .ok (.jobj acc2, pos6 + 1, r2)
               | ',' :: r2 =>
                   let (pos7, cs7) := skipWs (pos6 + 1) r2
                   pstep fuel (.members acc2) pos7 cs7
               | _ => .error ⟨"Expecting \x27,\x27 delimiter", pos6⟩)
          | _ => .error ⟨"Expecting \x27:\x27 delimiter", pos3⟩)
     | _ => .error ⟨"Expecting property name enclosed in double quotes", pos⟩)
  | fuel + 1, .strChunk sp acc, pos, cs =>
    (match cs with
     | [] => .error ⟨"Unterminated string starting at", sp⟩
     | '"' :: r => .ok (.jstr (String.mk acc), pos + 1, r)
     | '\\' :: r =>
       (match r with
        | [] => .error ⟨"Unterminated string starting at", sp⟩
        | 'u' :: h1 :: h2 :: h3 :: h4 :: r3 =>
          if isHex h1 ∧ isHex h2 ∧ isHex h3 ∧ isHex h4 then
            let n := hexVal h1 * 4096 + hexVal h2 * 256 + hexVal h3 * 16 + hexVal h4
            if 0xd800 ≤ n ∧ n ≤ 0xdbff then
              match r3 with
              | '\\' :: 'u' :: g1 :: g2 :: g3 :: g4 :: r4 =>
                if isHex g1 ∧ isHex g2 ∧ isHex g3 ∧ isHex g4 then
                  let m := hexVal g1 * 4096 + hexVal g2 * 256 + hexVal g3 * 16 + hexVal g4
                  if 0xdc00 ≤ m ∧ m ≤ 0xdfff then
                    pstep fuel
                      (.strChunk sp
                        (acc ++ [Char.ofNat (0x10000 + (n - 0xd800) * 1024 + (m - 0xdc00))]))
                      (pos + 12) r4
                  else .error ⟨"lone surrogate in \\uXXXX escape is outside this model", pos⟩
                else .error ⟨"Invalid \\uXXXX escape", pos + 8⟩
              | _ => .error ⟨"lone surrogate in \\uXXXX escape is outside this model", pos⟩
            else if 0xdc00 ≤ n ∧ n ≤ 0xdfff then
              .error ⟨"lone surrogate in \\uXXXX escape is outside this model", pos⟩
            else pstep fuel (.strChunk sp (acc ++ [Char.ofNat n])) (pos + 6) r3
          else .error ⟨"Invalid \\uXXXX escape", pos + 2⟩
        | 'u' :: _ => .error ⟨"Invalid \\uXXXX escape", pos + 2⟩
        | e :: r2 =>
          let m : Option Char :=
            if e = '"' then some '"'
            else if e = '\\' then some '\\'
            else if e = '/' then some '/'
            else if e = 'b' then some '\x08'
            else if e = 'f' then some '\x0c'
            else if e = 'n' then some '\n'
            else if e = 'r' then some '\r'
            else if e = 't' then some '\t'
            else none
          match m with
          | some c => pstep fuel (.strChunk sp (acc ++ [c])) (pos + 2) r2
          | none => .error ⟨"Invalid \\escape", pos⟩)
     | c :: r =>
       if c.toNat < 0x20 then .error ⟨"Invalid control character at", pos⟩
       else pstep fuel (.strChunk sp (acc ++ [c])) (pos + 1) r)

/-- Line number of a character position, as CPython's `JSONDecodeError`
computes it. -/
def lineOfPos (cs : List Char) (pos : Nat) : Nat :=
  1 + ((cs.take pos).filter (fun c => c = '\n')).length

/-- Column number of a character position, as CPython's `JSONDecodeError`
computes it. -/
def colOfPos (cs : List Char) (pos : Nat) : Nat :=
  match List.findIdx? (fun c => c = '\n') (cs.take pos).reverse with
  | none => pos + 1
  | some k => k + 1

/-- Full `str(JSONDecodeError)` text: message, line, column, character
offset. -/
def fmtPErr (doc : List Char) (e : PErr) : String :=
  e.what ++ ": line " ++ toString (lineOfPos doc e.pos) ++ " column " ++
    toString (colOfPos doc e.pos) ++ " (char " ++ toString e.pos ++ ")"

/-- Line 19, `json.loads(...)`: skip leading whitespace, parse one value,
require only whitespace to follow (else `Extra data`). -/
def jsonLoads (s : String) : Except String Json :=
  let cs := s.data
  let (pos0, cs0) := skipWs 0 cs
  match pstep (2 * cs.length + 8) .value pos0 cs0 with
  | .error e => .error (fmtPErr cs e)
  | .ok (v, pos1, rest) =>
    let (pos2, rest2) := skipWs pos1 rest
    match rest2 with
    | [] => .ok v
    | _ :: _ => .error (fmtPErr cs ⟨"Extra data", pos2⟩)

/-- One inbound POST request as the handler sees it: the raw
`Content-Length` header value (`none` when the header is absent) and the
bytes available on the connection. -/
structure Request where
  contentLength : Option String
  body : List Nat
deriving Repr, DecidableEq

/-- The HTTP response the handler writes: status code, the one explicitly
sent header (name as spelled at line 42, value), and the body text. -/
structure HttpResponse where
  status : Nat
  headerName : String
  headerValue : String
  body : String
deriving Repr, DecidableEq

/-- Result of handling one POST: either a response was written (with the
`print` calls made, in order), or an uncaught exception escaped `do_POST`
before `send_response` ran, so no response was written. -/
inductive Outcome where
  | crashed (printed : List String)
  | responded (printed : List String) (resp : HttpResponse)
deriving Repr, DecidableEq

/-- Whether the outcome wrote any HTTP response at all. -/
def Outcome.isResponded : Outcome → Bool
  | .crashed _ => false
  | .responded _ _ => true

/-- Line 12, `self.rfile.read(content_length)`: at most `n` bytes are taken
from the connection; a negative count makes the buffered reader consume
everything. -/
def readBody (n : Int) (body : List Nat) : List Nat :=
  if n < 0 then body else body.take n.toNat

/-- The 80-character `=` separator of lines 14, 16 and 34. -/
def sepLine : String := String.mk (List.replicate 80 '=')

/-- Lines 14-16: the banner printed for every POST before the body is
parsed. -/
def preamble : List String :=
  ["\n" ++ sepLine, "✅ 收到Webhook通知！", sepLine]

/-- Lines 41-44: the fixed acknowledgment, status 200 with the literal JSON
body. -/
def ackResponse : HttpResponse :=
  ⟨200, "Content-type", "application/json", "\x7b\"status\": \"received\"\x7d"⟩

/-- Python `AttributeError` message text. -/
def noAttrMsg (ty attr : String) : String :=
  "\x27" ++ ty ++ "\x27 object has no attribute \x27" ++ attr ++ "\x27"

/-- Rendering of `data.get(k)` inside an f-string: the value's `str`, or
`None` when the key is absent. -/
def renderGet (o : List (String × Json)) (k : String) : String :=
  match getD o k with
  | some v => pyStr v
  | none => "None"

/-- Rendering of `data.get('device_id', 'N/A')`: the stored value's `str`
when the key is present (even if the value is JSON `null`), the placeholder
only when the key is absent (line 25). -/
def deviceVal (o : List (String × Json)) : String :=
  match getD o "device_id" with
  | some v => pyStr v
  | none => "N/A"

/-- Line 25's full printed line (no leading newline: of the eight field
prints only line 20's alert-id line starts with one). -/
def deviceLine (o : List (String × Json)) : String :=
  "设备ID: " ++ deviceVal o

/-- Lines 20-27: the fixed-order labeled field block printed for every JSON
object body. -/
def fieldBlock (o : List (String × Json)) : List String :=
  ["\n告警ID: " ++ renderGet o "alert_id",
   "标题: " ++ renderGet o "title",
   "消息: " ++ renderGet o "message",
   "严重程度: " ++ renderGet o "severity",
   "告警类型: " ++ renderGet o "alert_type",
   deviceLine o,
   "创建时间: " ++ renderGet o "created_at",
   "时间戳: " ++ renderGet o "timestamp"]

/-- Line 31's per-pair metadata lines, in the dict's insertion order. -/
def metaLines (kvs : List (String × Json)) : List String :=
  kvs.map (fun kv => "  " ++ kv.1 ++ ": " ++ pyStr kv.2)

/-- Lines 20-34 for a successfully parsed object body `o` with raw decoded
text `s`: field block, the truthiness-guarded metadata section (line 30's
heading prints before line 31's `.items()` call can raise), the closing
separator, then the acknowledgment.  An `AttributeError` from a non-dict
truthy `metadata` value is caught by line 36's `except`, which prints the
error and the raw text and still acknowledges. -/
def runObject (o : List (String × Json)) (s : String) : Outcome :=
  let base := preamble ++ fieldBlock o
  match getD o "metadata" with
  | some m =>
      if pyTruthy m then
        match m with
        | .jobj kvs =>
            .responded (base ++ ["\n元数据:"] ++ metaLines kvs ++
              ["\n" ++ sepLine ++ "\n"]) ackResponse
        | _ =>
            .responded (base ++ ["\n元数据:"] ++
              ["解析错误: " ++ noAttrMsg (pyTypeName m) "items",
               "原始数据: " ++ s]) ackResponse
      else .responded (base ++ ["\n" ++ sepLine ++ "\n"]) ackResponse
  | none => .responded (base ++ ["\n" ++ sepLine ++ "\n"]) ackResponse

/-- `WebhookHandler.do_POST` (lines 10-44) as a pure function.  Line 11's
`int(self.headers['Content-Length'])` raises before anything is printed when
the header is missing or non-numeric.  A body that does not decode as UTF-8
raises `UnicodeDecodeError` at line 19; line 36 catches it and line 37
prints the parse error, but line 38 decodes the same bytes again, raises the
same error inside the `except` block, and `do_POST` aborts with nothing
sent.  Every other path reaches lines 41-44 and writes the fixed
acknowledgment. -/
def do_POST (req : Request) : Outcome :=
  match pyIntOfHeader req.contentLength with
  | none => .crashed []
  | some n =>
    let postData := readBody n req.body
    match utf8Decode postData with
    | .error e => .crashed (preamble ++ ["解析错误: " ++ e])
    | .ok s =>
      match jsonLoads s with
      | .error e =>
          .responded (preamble ++ ["解析错误: " ++ e, "原始数据: " ++ s])
            ackResponse
      | .ok v =>
        match v with
        | .jobj o => runObject o s
        | _ =>
            .responded (preamble ++
              ["解析错误: " ++ noAttrMsg (pyTypeName v) "get",
               "原始数据: " ++ s]) ackResponse

/-- The serve loop over a sequence of requests.  `WebhookHandler` keeps no
instance or module state across requests — `do_POST` reads only the current
request's header and body and writes no attribute — so serving is exactly a
map of the per-request handler. -/
def serve (reqs : List Request) : List Outcome :=
  reqs.map do_POST

/-- What `run_server(port)` (lines 50-56) fixes before blocking: the bind
address `('', port)` and the three banner lines. -/
structure ServerConfig where
  bindHost : String
  bindPort : Int
  banner : List String
deriving Repr, DecidableEq

/-- Lines 50-55: bind to all interfaces on `port` and print the startup
banner with the resolved webhook URL. -/
def run_server (port : Int) : ServerConfig :=
  ⟨"", port,
   ["🚀 Webhook接收器启动在端口 " ++ toString port,
    "📡 Webhook URL: http://localhost:" ++ toString port ++ "/webhook",
    "⏳ 等待告警通知...\n"]⟩

/-- Line 59, `int(sys.argv[1]) if len(sys.argv) > 1 else 8888`: the port the
process uses, from the argument list after the program name; `none` models
the `ValueError` of a non-integer argument. -/
def resolvePort (args : List String) : Option Int :=
  match args with
  | [] => some 8888
  | a :: _ => pyInt a

/-- Concrete demonstration body `{"title": "T", "metadata": {"zone": "us-east"}}`
as UTF-8 bytes. -/
def metaDemoBytes : List Nat :=
  [123, 34, 116, 105, 116, 108, 101, 34, 58, 32, 34, 84, 34, 44, 32,
   34, 109, 101, 116, 97, 100, 97, 116, 97, 34, 58, 32, 123, 34, 122, 111, 110, 101,
   34, 58, 32, 34, 117, 115, 45, 101, 97, 115, 116, 34, 125, 125]

/-- The same demonstration body as decoded text. -/
def metaDemoText : String :=
  "\x7b\"title\": \"T\", \"metadata\": \x7b\"zone\": \"us-east\"\x7d\x7d"

/-- The same demonstration body as the parsed JSON object. -/
def metaDemoObj : List (String × Json) :=
  [("title", Json.jstr "T"), ("metadata", Json.jobj [("zone", Json.jstr "us-east")])]

/-- Boolean check that one character list starts with another. -/
def chStarts : List Char → List Char → Bool
  | [], _ => true
  | _ :: _, [] => false
  | a :: as, b :: bs => a = b && chStarts as bs

lemma chStarts_append (a x : List Char) : chStarts a (a ++ x) = true := by
  induction a with
  | nil => rfl
  | cons c cs ih => simp [chStarts, ih]

lemma data_append (a b : String) : (a ++ b).data = a.data ++ b.data := by
  cases a
  cases b
  rfl

/-- A string that extends a label cannot equal a string the label does not
start. -/
lemma ne_label_append (lbl v t : String) (h : chStarts lbl.data t.data = false) :
    lbl ++ v ≠ t := by
  intro he
  have hd : lbl.data ++ v.data = t.data := by
    rw [← data_append, he]
  rw [← hd, chStarts_append] at h
  exact Bool.noConfusion h

/-- The header parsed to `n` and the read bytes decoded to `s`: `do_POST`
then behaves as the parse of `s` dictates. -/
lemma do_POST_parse_error (req : Request) (n : Int) (s e : String)
    (h1 : pyIntOfHeader req.contentLength = some n)
    (h2 : utf8Decode (readBody n req.body) = .ok s)
    (h3 : jsonLoads s = .error e) :
    do_POST req =
      .responded (preamble ++ ["解析错误: " ++ e, "原始数据: " ++ s]) ackResponse := by
  simp [do_POST, h1, h2, h3]

/-- A decode failure aborts `do_POST` right after the line-37 print. -/
lemma do_POST_decode_error (req : Request) (n : Int) (e : String)
    (h1 : pyIntOfHeader req.contentLength = some n)
    (h2 : utf8Decode (readBody n req.body) = .error e) :
    do_POST req = .crashed (preamble ++ ["解析错误: " ++ e]) := by
  simp [do_POST, h1, h2]

/-- A parsed non-object value makes line 20's `.get` raise
`AttributeError`, which line 36 catches. -/
lemma do_POST_nonobj (req : Request) (n : Int) (s : String) (v : Json)
    (h1 : pyIntOfHeader req.contentLength = some n)
    (h2 : utf8Decode (readBody n req.body) = .ok s)
    (h3 : jsonLoads s = .ok v) (hno : v.isObj = false) :
    do_POST req =
      .responded (preamble ++
        ["解析错误: " ++ noAttrMsg (pyTypeName v) "get", "原始数据: " ++ s])
        ackResponse := by
  cases v with
  | jobj o => exact absurd hno (by simp [Json.isObj])
  | jnull => simp [do_POST, h1, h2, h3]
  | jbool b => simp [do_POST, h1, h2, h3]
  | jnum lex => simp [do_POST, h1, h2, h3]
  | jstr s2 => simp [do_POST, h1, h2, h3]
  | jarr xs => simp [do_POST, h1, h2, h3]

/-- A parsed object body hands control to the object-display code. -/
lemma do_POST_object (req : Request) (n : Int) (s : String)
    (o : List (String × Json))
    (h1 : pyIntOfHeader req.contentLength = some n)
    (h2 : utf8Decode (readBody n req.body) = .ok s)
    (h3 : jsonLoads s = .ok (.jobj o)) :
    do_POST req = runObject o s := by
  simp [do_POST, h1, h2, h3]

/-- Every branch of the object-display code reaches lines 41-44 and writes
the fixed acknowledgment. -/
lemma runObject_ack (o : List (String × Json)) (s : String) :
    ∃ p, runObject o s = .responded p ackResponse := by
  rcases hm : getD o "metadata" with _ | m
  · exact ⟨preamble ++ fieldBlock o ++ ["\n" ++ sepLine ++ "\n"],
      by simp [runObject, hm]⟩
  · cases ht : pyTruthy m with
    | false =>
        exact ⟨preamble ++ fieldBlock o ++ ["\n" ++ sepLine ++ "\n"],
          by simp [runObject, hm, ht]⟩
    | true =>
        cases m with
        | jobj kvs =>
            exact ⟨preamble ++ fieldBlock o ++ ["\n元数据:"] ++ metaLines kvs ++
              ["\n" ++ sepLine ++ "\n"], by simp [runObject, hm, ht]⟩
        | jnull =>
            exact ⟨preamble ++ fieldBlock o ++ ["\n元数据:",
              "解析错误: " ++ noAttrMsg (pyTypeName .jnull) "items",
              "原始数据: " ++ s], by simp [runObject, hm, ht]⟩
        | jbool b =>
            exact ⟨preamble ++ fieldBlock o ++ ["\n元数据:",
              "解析错误: " ++ noAttrMsg (pyTypeName (.jbool b)) "items",
              "原始数据: " ++ s], by simp [runObject, hm, ht]⟩
        | jnum lex =>
            exact ⟨preamble ++ fieldBlock o ++ ["\n元数据:",
              "解析错误: " ++ noAttrMsg (pyTypeName (.jnum lex)) "items",
              "原始数据: " ++ s], by simp [runObject, hm, ht]⟩
        | jstr s2 =>
            exact ⟨preamble ++ fieldBlock o ++ ["\n元数据:",
              "解析错误: " ++ noAttrMsg (pyTypeName (.jstr s2)) "items",
              "原始数据: " ++ s], by simp [runObject, hm, ht]⟩
        | jarr xs =>
            exact ⟨preamble ++ fieldBlock o ++ ["\n元数据:",
              "解析错误: " ++ noAttrMsg (pyTypeName (.jarr xs)) "items",
              "原始数据: " ++ s], by simp [runObject, hm, ht]⟩

/-- C1, as frozen, is false: this POST carries a syntactically valid
`Content-Length` of `1`, but its body is the lone byte `0xff`, which is not
UTF-8; the re-decode at line 38 raises inside the `except` block, so the
handler writes no response at all, in particular no 200 acknowledgment. -/
theorem ack_invariance_fails_on_invalid_utf8 :
    pyIntOfHeader (some "1") = some 1 ∧
    (do_POST ⟨some "1", [255]⟩).isResponded = false :=
  ⟨rfl, rfl⟩

/-- C1 (amended): for every POST request whose `Content-Length` header is a
syntactically valid integer and whose read body is valid UTF-8, the handler
responds with status 200, header `Content-type: application/json`, and body
exactly the literal `{"status": "received"}`, regardless of whether the body
is valid JSON. -/
theorem ack_invariance_for_utf8_bodies (req : Request) (n : Int) (s : String)
    (h1 : pyIntOfHeader req.contentLength = some n)
    (h2 : utf8Decode (readBody n req.body) = .ok s) :
    ∃ printed, do_POST req = .responded printed ackResponse ∧
      ackResponse.status = 200 ∧
      ackResponse.headerName = "Content-type" ∧
      ackResponse.headerValue = "application/json" ∧
      ackResponse.body = "\x7b\"status\": \"received\"\x7d" := by
  cases hjs : jsonLoads s with
  | error e =>
      exact ⟨_, do_POST_parse_error req n s e h1 h2 hjs, rfl, rfl, rfl, rfl⟩
  | ok v =>
    cases hv : v.isObj with
    | false => exact ⟨_, do_POST_nonobj req n s v h1 h2 hjs hv, rfl, rfl, rfl, rfl⟩
    | true =>
        cases v with
        | jobj o =>
            obtain ⟨p, hp⟩ := runObject_ack o s
            exact ⟨p, (do_POST_object req n s o h1 h2 hjs).trans hp, rfl, rfl, rfl, rfl⟩
        | jnull => exact absurd hv (by simp [Json.isObj])
        | jbool b => exact absurd hv (by simp [Json.isObj])
        | jnum lex => exact absurd hv (by simp [Json.isObj])
        | jstr s2 => exact absurd hv (by simp [Json.isObj])
        | jarr xs => exact absurd hv (by simp [Json.isObj])

/-- Witness for the amended C1 at the concrete body `42` (valid UTF-8, valid
JSON but not an object) with `Content-Length: 2`. -/
theorem ack_invariance_for_utf8_bodies_witness :
    ∃ printed, do_POST ⟨some "2", [52, 50]⟩ = .responded printed ackResponse ∧
      ackResponse.status = 200 ∧
      ackResponse.headerName = "Content-type" ∧
      ackResponse.headerValue = "application/json" ∧
      ackResponse.body = "\x7b\"status\": \"received\"\x7d" :=
  ack_invariance_for_utf8_bodies ⟨some "2", [52, 50]⟩ 2 "42" rfl rfl

/-- C2, as frozen, is false: on the invalid-UTF-8 body `c3 28` the printed
output stops at the parse-error line — the raw body text is never printed —
and no acknowledgment is sent, because line 38 decodes the same bytes again
inside the `except` block and the fresh `UnicodeDecodeError` escapes
`do_POST`. -/
theorem invalid_utf8_ack_lost_concrete :
    (do_POST ⟨some "2", [195, 40]⟩).isResponded = false ∧
    do_POST ⟨some "2", [195, 40]⟩ =
      .crashed (preamble ++
        ["解析错误: \x27utf-8\x27 codec can\x27t decode byte 0xc3 in position 0: invalid continuation byte"]) :=
  ⟨rfl, rfl⟩

/-- C2 (amended): for every POST body that is not valid UTF-8, line 36
catches the decode failure like a JSON parse failure and line 37 prints the
parse-error message with the failure description; but line 38's attempt to
print the raw body re-decodes the bytes and raises again, so the raw-text
line is never printed and the success acknowledgment is not sent. -/
theorem invalid_utf8_crashes_after_error_line (req : Request) (n : Int) (e : String)
    (h1 : pyIntOfHeader req.contentLength = some n)
    (h2 : utf8Decode (readBody n req.body) = .error e) :
    do_POST req = .crashed (preamble ++ ["解析错误: " ++ e]) := by
  simp [do_POST, h1, h2]

/-- Witness for the amended C2 at the concrete body `ff` with
`Content-Length: 1`. -/
theorem invalid_utf8_crashes_after_error_line_witness :
    do_POST ⟨some "1", [255]⟩ =
      .crashed (preamble ++
        ["解析错误: \x27utf-8\x27 codec can\x27t decode byte 0xff in position 0: invalid start byte"]) :=
  invalid_utf8_crashes_after_error_line ⟨some "1", [255]⟩ 1 _ rfl rfl

/-- C3: for every POST body that is valid UTF-8 text but not valid JSON, the
handler prints the parse-error message with the failure description and the
raw body text, and still responds 200 with the fixed acknowledgment. -/
theorem malformed_json_tolerance (req : Request) (n : Int) (s e : String)
    (h1 : pyIntOfHeader req.contentLength = some n)
    (h2 : utf8Decode (readBody n req.body) = .ok s)
    (h3 : jsonLoads s = .error e) :
    do_POST req =
      .responded (preamble ++ ["解析错误: " ++ e, "原始数据: " ++ s]) ackResponse ∧
    ackResponse.status = 200 :=
  ⟨by simp [do_POST, h1, h2, h3], rfl⟩

/-- Witness for C3 at the literal body `not json`. -/
theorem malformed_json_tolerance_witness :
    do_POST ⟨some "8", [110, 111, 116, 32, 106, 115, 111, 110]⟩ =
      .responded (preamble ++
        ["解析错误: Expecting value: line 1 column 1 (char 0)",
         "原始数据: not json"]) ackResponse ∧
    ackResponse.status = 200 :=
  malformed_json_tolerance ⟨some "8", [110, 111, 116, 32, 106, 115, 111, 110]⟩
    8 "not json" "Expecting value: line 1 column 1 (char 0)" rfl rfl rfl

/-- C4: a missing or non-numeric `Content-Length` makes line 11 raise before
anything is printed or sent — `do_POST` aborts with no designed error path —
while a numeric header of value `n ≥ 0` makes line 12 read exactly `n` bytes
of the body (when the connection supplies them). -/
theorem content_length_defect_and_exact_read (req : Request) :
    (pyIntOfHeader req.contentLength = none → do_POST req = .crashed []) ∧
    (req.contentLength = none → pyIntOfHeader req.contentLength = none) ∧
    (∀ n : Int, pyIntOfHeader req.contentLength = some n → 0 ≤ n →
      n.toNat ≤ req.body.length →
      readBody n req.body = req.body.take n.toNat ∧
      (readBody n req.body).length = n.toNat) := by
  refine ⟨fun h => by simp [do_POST, h],
          fun h => by simp [pyIntOfHeader, h],
          fun n hn h0 hlen => ?_⟩
  have hneg : ¬ n < 0 := not_lt.mpr h0
  refine ⟨by simp [readBody, hneg], ?_⟩
  simp only [readBody, if_neg hneg, List.length_take]
  omega

/-- Witness for C4: a request with no `Content-Length` header crashes with
nothing printed, and a numeric header of `1` reads exactly one byte. -/
theorem content_length_defect_and_exact_read_witness :
    do_POST ⟨none, [65]⟩ = .crashed [] ∧ readBody 1 [65, 66] = [65] :=
  ⟨(content_length_defect_and_exact_read ⟨none, [65]⟩).1 rfl,
   ((content_length_defect_and_exact_read ⟨some "1", [65, 66]⟩).2.2 1 rfl
      (by decide) (by decide)).1⟩

/-- Whatever the metadata section does, the printed output of an object body
starts with the preamble and the full field block. -/
lemma runObject_shape (o : List (String × Json)) (s : String) :
    ∃ rest, runObject o s =
      .responded (preamble ++ fieldBlock o ++ rest) ackResponse := by
  rcases hm : getD o "metadata" with _ | m
  · exact ⟨["\n" ++ sepLine ++ "\n"], by simp [runObject, hm]⟩
  · cases ht : pyTruthy m with
    | false =>
        exact ⟨["\n" ++ sepLine ++ "\n"], by simp [runObject, hm, ht]⟩
    | true =>
        cases m with
        | jobj kvs =>
            exact ⟨["\n元数据:"] ++ metaLines kvs ++ ["\n" ++ sepLine ++ "\n"],
              by simp [runObject, hm, ht]⟩
        | jnull =>
            exact ⟨["\n元数据:", "解析错误: " ++ noAttrMsg (pyTypeName .jnull) "items",
              "原始数据: " ++ s], by simp [runObject, hm, ht]⟩
        | jbool b =>
            exact ⟨["\n元数据:", "解析错误: " ++ noAttrMsg (pyTypeName (.jbool b)) "items",
              "原始数据: " ++ s], by simp [runObject, hm, ht]⟩
        | jnum lex =>
            exact ⟨["\n元数据:", "解析错误: " ++ noAttrMsg (pyTypeName (.jnum lex)) "items",
              "原始数据: " ++ s], by simp [runObject, hm, ht]⟩
        | jstr s2 =>
            exact ⟨["\n元数据:", "解析错误: " ++ noAttrMsg (pyTypeName (.jstr s2)) "items",
              "原始数据: " ++ s], by simp [runObject, hm, ht]⟩
        | jarr xs =>
            exact ⟨["\n元数据:", "解析错误: " ++ noAttrMsg (pyTypeName (.jarr xs)) "items",
              "原始数据: " ++ s], by simp [runObject, hm, ht]⟩

/-- C5: for every POST body that parses as a JSON object, the printed output
continues the preamble with the fixed-order labeled block — alert id, title,
message, severity, alert type, device id, creation time, timestamp — every
label present even when its key is absent (rendering `None`), and the device
id position alone falling back to the literal placeholder `N/A` when the
`device_id` key is absent. -/
theorem field_block_fixed_order (req : Request) (n : Int) (s : String)
    (o : List (String × Json))
    (h1 : pyIntOfHeader req.contentLength = some n)
    (h2 : utf8Decode (readBody n req.body) = .ok s)
    (h3 : jsonLoads s = .ok (.jobj o)) :
    ∃ rest, do_POST req =
      .responded (preamble ++
        ["\n告警ID: " ++ renderGet o "alert_id",
         "标题: " ++ renderGet o "title",
         "消息: " ++ renderGet o "message",
         "严重程度: " ++ renderGet o "severity",
         "告警类型: " ++ renderGet o "alert_type",
         "设备ID: " ++ deviceVal o,
         "创建时间: " ++ renderGet o "created_at",
         "时间戳: " ++ renderGet o "timestamp"] ++ rest) ackResponse ∧
      (getD o "device_id" = none → deviceVal o = "N/A") ∧
      (∀ k, getD o k = none → renderGet o k = "None") := by
  obtain ⟨rest, hro⟩ := runObject_shape o s
  refine ⟨rest, ?_, fun h => by simp [deviceVal, h], fun k h => by simp [renderGet, h]⟩
  rw [do_POST_object req n s o h1 h2 h3, hro]
  simp [fieldBlock, deviceLine]

/-- Witness for C5 at the concrete object body with only a `title` key: all
eight labels print, six render `None`, and the device id renders `N/A`. -/
theorem field_block_fixed_order_witness :
    ∃ rest, do_POST ⟨some "14", [123, 34, 116, 105, 116, 108, 101, 34, 58, 32, 34, 84, 34, 125]⟩ =
      .responded (preamble ++
        ["\n告警ID: " ++ renderGet [("title", Json.jstr "T")] "alert_id",
         "标题: " ++ renderGet [("title", Json.jstr "T")] "title",
         "消息: " ++ renderGet [("title", Json.jstr "T")] "message",
         "严重程度: " ++ renderGet [("title", Json.jstr "T")] "severity",
         "告警类型: " ++ renderGet [("title", Json.jstr "T")] "alert_type",
         "设备ID: " ++ deviceVal [("title", Json.jstr "T")],
         "创建时间: " ++ renderGet [("title", Json.jstr "T")] "created_at",
         "时间戳: " ++ renderGet [("title", Json.jstr "T")] "timestamp"] ++ rest) ackResponse ∧
      (getD [("title", Json.jstr "T")] "device_id" = none →
        deviceVal [("title", Json.jstr "T")] = "N/A") ∧
      (∀ k, getD [("title", Json.jstr "T")] k = none →
        renderGet [("title", Json.jstr "T")] k = "None") :=
  field_block_fixed_order ⟨some "14", [123, 34, 116, 105, 116, 108, 101, 34, 58, 32, 34, 84, 34, 125]⟩
    14 "\x7b\"title\": \"T\"\x7d" [("title", Json.jstr "T")] rfl rfl rfl

/-- The metadata heading never occurs among the preamble, the field block or
the closing separator, whatever the object's field values are. -/
lemma heading_not_mem (o : List (String × Json)) :
    "\n元数据:" ∉ preamble ++ fieldBlock o ++ ["\n" ++ sepLine ++ "\n"] := by
  intro h
  simp only [preamble, fieldBlock, deviceLine, List.append_assoc, List.cons_append,
    List.nil_append, List.mem_cons, List.mem_singleton, List.mem_append] at h
  rcases h with h | h | h | h | h | h | h | h | h | h | h | h
  · exact absurd h (by decide)
  · exact absurd h (by decide)
  · exact absurd h (by decide)
  · exact ne_label_append "\n告警ID: " _ _ (by decide) h.symm
  · exact ne_label_append "标题: " _ _ (by decide) h.symm
  · exact ne_label_append "消息: " _ _ (by decide) h.symm
  · exact ne_label_append "严重程度: " _ _ (by decide) h.symm
  · exact ne_label_append "告警类型: " _ _ (by decide) h.symm
  · exact ne_label_append "设备ID: " _ _ (by decide) h.symm
  · exact ne_label_append "创建时间: " _ _ (by decide) h.symm
  · exact ne_label_append "时间戳: " _ _ (by decide) h.symm
  · exact absurd h (by decide)

/-- C6: for every POST body parsing as a JSON object, a `metadata` key
holding a non-empty mapping makes the handler print the heading and one
`  key: value` line per pair in the mapping's insertion order; an absent
`metadata` key or an empty mapping suppresses the metadata section
entirely. -/
theorem metadata_section_behavior (req : Request) (n : Int) (s : String)
    (o : List (String × Json))
    (h1 : pyIntOfHeader req.contentLength = some n)
    (h2 : utf8Decode (readBody n req.body) = .ok s)
    (h3 : jsonLoads s = .ok (.jobj o)) :
    (∀ kvs, getD o "metadata" = some (.jobj kvs) → kvs ≠ [] →
      do_POST req = .responded (preamble ++ fieldBlock o ++ ["\n元数据:"] ++
        metaLines kvs ++ ["\n" ++ sepLine ++ "\n"]) ackResponse ∧
      metaLines kvs = kvs.map (fun kv => "  " ++ kv.1 ++ ": " ++ pyStr kv.2)) ∧
    ((getD o "metadata" = none ∨ getD o "metadata" = some (.jobj [])) →
      do_POST req = .responded
        (preamble ++ fieldBlock o ++ ["\n" ++ sepLine ++ "\n"]) ackResponse ∧
      "\n元数据:" ∉ preamble ++ fieldBlock o ++ ["\n" ++ sepLine ++ "\n"]) := by
  rw [do_POST_object req n s o h1 h2 h3]
  constructor
  · intro kvs hm hne
    refine ⟨?_, rfl⟩
    cases kvs with
    | nil => exact absurd rfl hne
    | cons kv kvs2 => simp [runObject, hm, pyTruthy]
  · intro hm
    refine ⟨?_, heading_not_mem o⟩
    rcases hm with hm | hm
    · simp [runObject, hm]
    · simp [runObject, hm, pyTruthy]

/-- Witness for C6 at the concrete body with `metadata: {"zone": "us-east"}`:
the output contains the heading followed by the line `  zone: us-east`. -/
theorem metadata_section_behavior_witness :
    do_POST ⟨some "47", metaDemoBytes⟩ =
      .responded (preamble ++ fieldBlock metaDemoObj ++
        ["\n元数据:"] ++ metaLines [("zone", Json.jstr "us-east")] ++
        ["\n" ++ sepLine ++ "\n"]) ackResponse :=
  ((metadata_section_behavior ⟨some "47", metaDemoBytes⟩ 47 metaDemoText metaDemoObj
      rfl rfl rfl).1
    [("zone", Json.jstr "us-east")] rfl (List.cons_ne_nil _ _)).1

/-- C7: the handler is stateless — serving is a map of `do_POST` over the
request sequence, so the same request arriving twice (after any prefix of
earlier requests) yields two identical, independent outcomes, with nothing
carried from one request to the next. -/
theorem handler_stateless_idempotent (rs : List Request) (r : Request) :
    serve (rs ++ [r, r]) = serve rs ++ [do_POST r, do_POST r] := by
  simp [serve]

/-- C8: with no argument the port is 8888 and the banner names
`http://localhost:8888/webhook`; with argument `9001` the port is 9001 and
the banner names `http://localhost:9001/webhook`; `run_server` binds host
`''` (all interfaces) on the resolved port. -/
theorem port_resolution_and_banner :
    resolvePort [] = some 8888 ∧
    (run_server 8888).bindHost = "" ∧
    (run_server 8888).bindPort = 8888 ∧
    "📡 Webhook URL: http://localhost:8888/webhook" ∈ (run_server 8888).banner ∧
    resolvePort ["9001"] = some 9001 ∧
    (run_server 9001).bindPort = 9001 ∧
    "📡 Webhook URL: http://localhost:9001/webhook" ∈ (run_server 9001).banner := by
  refine ⟨rfl, rfl, rfl, ?_, rfl, rfl, ?_⟩ <;> exact .tail _ (.head _)

/-- C9: a POST body that is valid UTF-8 and valid JSON but not a JSON object
takes the parse-error branch — line 20's attribute access raises, line 36
catches, and the failure description plus the raw body text are printed
instead of the labeled block — and the fixed 200 acknowledgment is still
sent. -/
theorem non_object_json_error_branch (req : Request) (n : Int) (s : String)
    (v : Json)
    (h1 : pyIntOfHeader req.contentLength = some n)
    (h2 : utf8Decode (readBody n req.body) = .ok s)
    (h3 : jsonLoads s = .ok v) (hno : v.isObj = false) :
    do_POST req =
      .responded (preamble ++
        ["解析错误: " ++ noAttrMsg (pyTypeName v) "get", "原始数据: " ++ s])
        ackResponse ∧
    ackResponse.status = 200 :=
  ⟨do_POST_nonobj req n s v h1 h2 h3 hno, rfl⟩

/-- Witness for C9 at the concrete JSON array body `[1, 2]`. -/
theorem non_object_json_error_branch_witness :
    do_POST ⟨some "6", [91, 49, 44, 32, 50, 93]⟩ =
      .responded (preamble ++
        ["解析错误: \x27list\x27 object has no attribute \x27get\x27",
         "原始数据: [1, 2]"]) ackResponse ∧
    ackResponse.status = 200 :=
  non_object_json_error_branch ⟨some "6", [91, 49, 44, 32, 50, 93]⟩ 6 "[1, 2]"
    (.jarr [.jnum "1", .jnum "2"]) rfl rfl rfl rfl

/-- C10: when the parsed object contains `device_id` with value JSON `null`,
the printed device id line is `设备ID: None`, not the `N/A` placeholder —
the placeholder fires only when the key is absent. -/
theorem device_id_null_renders_none (req : Request) (n : Int) (s : String)
    (o : List (String × Json))
    (h1 : pyIntOfHeader req.contentLength = some n)
    (h2 : utf8Decode (readBody n req.body) = .ok s)
    (h3 : jsonLoads s = .ok (.jobj o))
    (h4 : getD o "device_id" = some .jnull) :
    ∃ pre post, do_POST req = .responded (pre ++ ["设备ID: None"] ++ post) ackResponse ∧
      "设备ID: None" ≠ "设备ID: N/A" := by
  obtain ⟨rest, hro⟩ := runObject_shape o s
  refine ⟨preamble ++
    ["\n告警ID: " ++ renderGet o "alert_id",
     "标题: " ++ renderGet o "title",
     "消息: " ++ renderGet o "message",
     "严重程度: " ++ renderGet o "severity",
     "告警类型: " ++ renderGet o "alert_type"],
    ["创建时间: " ++ renderGet o "created_at",
     "时间戳: " ++ renderGet o "timestamp"] ++ rest, ?_, by decide⟩
  rw [do_POST_object req n s o h1 h2 h3, hro]
  have hd : deviceVal o = "None" := by simp [deviceVal, h4, pyStr]
  simp [fieldBlock, deviceLine, hd]

/-- Witness for C10 at the concrete body `{"device_id": null}`. -/
theorem device_id_null_renders_none_witness :
    ∃ pre post, do_POST ⟨some "19", [123, 34, 100, 101, 118, 105, 99, 101, 95, 105, 100,
        34, 58, 32, 110, 117, 108, 108, 125]⟩ =
      .responded (pre ++ ["设备ID: None"] ++ post) ackResponse ∧
      "设备ID: None" ≠ "设备ID: N/A" :=
  device_id_null_renders_none
    ⟨some "19", [123, 34, 100, 101, 118, 105, 99, 101, 95, 105, 100, 34, 58, 32, 110,
      117, 108, 108, 125]⟩
    19 "\x7b\"device_id\": null\x7d" [("device_id", Json.jnull)] rfl rfl rfl rfl

end EdgeLink
